import Mathlib

/-
Shallow embedding of src/src/layouts/articleLayout.tsx.

The component receives a Gatsby page query result (`data`) plus router
props (`location`); it returns `null` for falsy `data`, destructures the
query result (a destructuring step throws a TypeError when an intermediate
object is null or undefined), and otherwise renders a fragment of four
children: SEO, a section wrapping TopSection, MDXRenderer, PageBottom.

JavaScript values are modelled by `JSValue` (numbers as integers; NaN,
-0 and floats are not needed by any claim). A property access that
throws is modelled by `Except.error`; the rendered output is a small
element tree. The `navigate` prop passed to TopSection is a function
value obtained from the `useNavigate` hook and carries no render data,
so it is not part of the element model.
-/

namespace Docs

/-- A JavaScript runtime value, as far as the layout component observes it. -/
inductive JSValue where
  | null
  | undefined
  | boolean (b : Bool)
  | number (n : Int)
  | string (s : String)
  | array (elems : List JSValue)
  | object (fields : List (String × JSValue))
  deriving Repr

/-- JavaScript truthiness: null, undefined, false, 0 and "" are falsy. -/
def JSValue.truthy : JSValue → Bool
  | .null => false
  | .undefined => false
  | .boolean b => b
  | .number n => n != 0
  | .string s => s != ""
  | .array _ => true
  | .object _ => true

/-- Loose equality with null (`x == null`): true exactly for null and undefined. -/
def JSValue.looseEqNull : JSValue → Bool
  | .null => true
  | .undefined => true
  | _ => false

/-- Pure property lookup: field of an object, `undefined` when the key is
missing or the receiver is not an object. Never throws. -/
def JSValue.lookup : JSValue → String → JSValue
  | .object fs, k =>
    match fs.find? (fun p => p.1 == k) with
    | some p => p.2
    | none => .undefined
  | _, _ => .undefined

/-- JavaScript property access `v[k]`: throws a TypeError when the receiver
is null or undefined, otherwise yields the field (or undefined). Accessing a
field of a non-null primitive boxes it and yields undefined here, as no
primitive involved carries own properties. -/
def JSValue.get (v : JSValue) (k : String) : Except String JSValue :=
  match v with
  | .null => .error ("TypeError: cannot read property " ++ k ++ " of null")
  | .undefined => .error ("TypeError: cannot read property " ++ k ++ " of undefined")
  | _ => .ok (v.lookup k)

mutual

/-- JavaScript ToString, used by the template literal
`${docsLocation}/${parent.relativePath}`. Arrays join their elements with
commas, stringifying null and undefined elements as the empty string. -/
def JSValue.toJSString : JSValue → String
  | .null => "null"
  | .undefined => "undefined"
  | .boolean b => if b then "true" else "false"
  | .number n => toString n
  | .string s => s
  | .array xs => String.intercalate "," (JSValue.elemStrings xs)
  | .object _ => "[object Object]"

/-- Stringification of the elements of an array for Array.prototype.join. -/
def JSValue.elemStrings : List JSValue → List String
  | [] => []
  | .null :: xs => "" :: JSValue.elemStrings xs
  | .undefined :: xs => "" :: JSValue.elemStrings xs
  | x :: xs => x.toJSString :: JSValue.elemStrings xs

end

/-- JavaScript `a || b`: `a` when truthy, else `b`. -/
def jsOr (a b : JSValue) : JSValue := if a.truthy then a else b

/-- The props the layout hands to TopSection (minus the `navigate`
callback, which is a function value). -/
structure TopSectionProps where
  location : JSValue
  title : JSValue
  slug : JSValue
  langSwitcher : JSValue
  dbSwitcher : JSValue
  toc : JSValue
  deriving Repr

/-- A rendered element of the fragment returned by ArticleLayout. -/
inductive Element where
  | seo (title : JSValue) (description : JSValue)
  | htmlSection (className : String) (children : List Element)
  | topSection (props : TopSectionProps)
  | mdxRenderer (children : JSValue)
  | pageBottom (editDocsPath : JSValue) (pageUrl : JSValue)
  deriving Repr

/-- What a render returns: React null, or a fragment of children. -/
inductive RenderResult where
  | null
  | fragment (children : List Element)
  deriving Repr

/-- The ArticleLayout component of src/src/layouts/articleLayout.tsx.
Mirrors the source: the `!data` guard, the nested destructuring of the
query result (property accesses in source order, each of which can throw),
and the returned fragment. The toc prop parses as
`(toc || (toc == null)) ? tableOfContents : []` by operator precedence. -/
def ArticleLayout (data : JSValue) (location : JSValue) : Except String RenderResult :=
  if !data.truthy then pure RenderResult.null
  else do
    let mdx ← data.get "mdx"
    let fields ← mdx.get "fields"
    let slug ← fields.get "slug"
    let modSlug ← fields.get "modSlug"
    let frontmatter ← mdx.get "frontmatter"
    let title ← frontmatter.get "title"
    let metaTitle ← frontmatter.get "metaTitle"
    let metaDescription ← frontmatter.get "metaDescription"
    let langSwitcher ← frontmatter.get "langSwitcher"
    let dbSwitcher ← frontmatter.get "dbSwitcher"
    let toc ← frontmatter.get "toc"
    let body ← mdx.get "body"
    let parent ← mdx.get "parent"
    let tableOfContents ← mdx.get "tableOfContents"
    let site ← data.get "site"
    let siteMetadata ← site.get "siteMetadata"
    let docsLocation ← siteMetadata.get "docsLocation"
    let relativePath ← parent.get "relativePath"
    pure (RenderResult.fragment [
      Element.seo (jsOr metaTitle title) (jsOr metaDescription title),
      Element.htmlSection "top-section" [Element.topSection {
        location := location
        title := title
        slug := modSlug
        langSwitcher := langSwitcher
        dbSwitcher := dbSwitcher
        toc := if toc.truthy || toc.looseEqNull then tableOfContents else JSValue.array [] }],
      Element.mdxRenderer body,
      Element.pageBottom
        (JSValue.string (docsLocation.toJSString ++ "/" ++ relativePath.toJSString))
        slug])

/-- A query result of exactly the shape the exported GraphQL query
produces, with every leaf value arbitrary. -/
def mkData (slug modSlug title metaTitle metaDescription langSwitcher dbSwitcher toc
    body relativePath tableOfContents docsLocation : JSValue) : JSValue :=
  JSValue.object [
    ("mdx", JSValue.object [
      ("fields", JSValue.object [("slug", slug), ("modSlug", modSlug)]),
      ("frontmatter", JSValue.object [
        ("title", title), ("metaTitle", metaTitle), ("metaDescription", metaDescription),
        ("langSwitcher", langSwitcher), ("dbSwitcher", dbSwitcher), ("toc", toc)]),
      ("body", body),
      ("parent", JSValue.object [("relativePath", relativePath)]),
      ("tableOfContents", tableOfContents)]),
    ("site", JSValue.object [
      ("siteMetadata", JSValue.object [("docsLocation", docsLocation)])])]

/-- On a query result of the expected shape, the render computes to the
four-element fragment; every later theorem about the happy path is read
off this equation. -/
theorem ArticleLayout_mkData (slug modSlug title metaTitle metaDescription langSwitcher
    dbSwitcher toc body relativePath tableOfContents docsLocation location : JSValue) :
    ArticleLayout (mkData slug modSlug title metaTitle metaDescription langSwitcher
      dbSwitcher toc body relativePath tableOfContents docsLocation) location =
    Except.ok (RenderResult.fragment [
      Element.seo (jsOr metaTitle title) (jsOr metaDescription title),
      Element.htmlSection "top-section" [Element.topSection {
        location := location
        title := title
        slug := modSlug
        langSwitcher := langSwitcher
        dbSwitcher := dbSwitcher
        toc := if toc.truthy || toc.looseEqNull then tableOfContents else JSValue.array [] }],
      Element.mdxRenderer body,
      Element.pageBottom
        (JSValue.string (docsLocation.toJSString ++ "/" ++ relativePath.toJSString))
        slug]) := rfl

/-- The toc prop handed to TopSection, when the render produced the
expected fragment. -/
def passedToc : Except String RenderResult → Option JSValue
  | Except.ok (RenderResult.fragment
      [_, Element.htmlSection _ [Element.topSection props], _, _]) => some props.toc
  | _ => none

/-- The title and description props handed to SEO. -/
def passedSEO : Except String RenderResult → Option (JSValue × JSValue)
  | Except.ok (RenderResult.fragment (Element.seo t d :: _)) => some (t, d)
  | _ => none

/-- The children handed to MDXRenderer. -/
def passedMdxChildren : Except String RenderResult → Option JSValue
  | Except.ok (RenderResult.fragment [_, _, Element.mdxRenderer b, _]) => some b
  | _ => none

/-- The editDocsPath and pageUrl props handed to PageBottom. -/
def passedPageBottom : Except String RenderResult → Option (JSValue × JSValue)
  | Except.ok (RenderResult.fragment [_, _, _, Element.pageBottom e p]) => some (e, p)
  | _ => none

/-- Property access succeeds on every receiver that is not loosely equal
to null, and yields the pure lookup. -/
theorem JSValue.get_of_not_null (v : JSValue) (k : String)
    (h : v.looseEqNull = false) : v.get k = Except.ok (v.lookup k) := by
  cases v with
  | null => simp [JSValue.looseEqNull] at h
  | undefined => simp [JSValue.looseEqNull] at h
  | boolean b => rfl
  | number n => rfl
  | string s => rfl
  | array xs => rfl
  | object fs => rfl

/-- Bind on an ok Except result applies the continuation. -/
theorem exceptBind_ok {α β : Type} (a : α) (f : α → Except String β) :
    (Except.ok a >>= f : Except String β) = f a := rfl

/-- Pure on Except is ok. -/
theorem exceptPure_eq_ok {α : Type} (a : α) :
    (pure a : Except String α) = Except.ok a := rfl

/-- C1: on every query result of the query's shape, the toc value passed to
TopSection equals data.mdx.tableOfContents whenever frontmatter.toc is
truthy or loosely equal to null (null or undefined), and equals the empty
array whenever frontmatter.toc is a non-null, non-undefined falsy value. -/
theorem toc_conditional_fallback (slug modSlug title metaTitle metaDescription langSwitcher
    dbSwitcher toc body relativePath tableOfContents docsLocation location : JSValue) :
    ((toc.truthy = true ∨ toc.looseEqNull = true) →
      passedToc (ArticleLayout (mkData slug modSlug title metaTitle metaDescription
        langSwitcher dbSwitcher toc body relativePath tableOfContents docsLocation)
        location) = some tableOfContents) ∧
    (toc.truthy = false → toc.looseEqNull = false →
      passedToc (ArticleLayout (mkData slug modSlug title metaTitle metaDescription
        langSwitcher dbSwitcher toc body relativePath tableOfContents docsLocation)
        location) = some (JSValue.array [])) := by
  refine ⟨fun h => ?_, fun h1 h2 => ?_⟩
  · rw [ArticleLayout_mkData]
    show some (if toc.truthy || toc.looseEqNull then tableOfContents else JSValue.array [])
      = some tableOfContents
    rcases h with h | h <;> simp [h]
  · rw [ArticleLayout_mkData]
    show some (if toc.truthy || toc.looseEqNull then tableOfContents else JSValue.array [])
      = some (JSValue.array [])
    simp [h1, h2]

theorem toc_conditional_fallback_witness :
    passedToc (ArticleLayout (mkData JSValue.null JSValue.null JSValue.null JSValue.null
      JSValue.null JSValue.null JSValue.null (JSValue.boolean false) JSValue.null
      JSValue.null (JSValue.string "table") JSValue.null) JSValue.null)
      = some (JSValue.array []) :=
  (toc_conditional_fallback JSValue.null JSValue.null JSValue.null JSValue.null
    JSValue.null JSValue.null JSValue.null (JSValue.boolean false) JSValue.null
    JSValue.null (JSValue.string "table") JSValue.null JSValue.null).2 rfl rfl

/-- C2: on every query result of the query's shape, the render is a fragment
holding, in order, the SEO element, a section of class top-section wrapping
TopSection (carrying the computed toc), the MDXRenderer with the body, and
the PageBottom element carrying the edit-docs path. -/
theorem article_render_order (slug modSlug title metaTitle metaDescription langSwitcher
    dbSwitcher toc body relativePath tableOfContents docsLocation location : JSValue) :
    ArticleLayout (mkData slug modSlug title metaTitle metaDescription langSwitcher
      dbSwitcher toc body relativePath tableOfContents docsLocation) location =
    Except.ok (RenderResult.fragment [
      Element.seo (jsOr metaTitle title) (jsOr metaDescription title),
      Element.htmlSection "top-section" [Element.topSection {
        location := location
        title := title
        slug := modSlug
        langSwitcher := langSwitcher
        dbSwitcher := dbSwitcher
        toc := if toc.truthy || toc.looseEqNull then tableOfContents else JSValue.array [] }],
      Element.mdxRenderer body,
      Element.pageBottom
        (JSValue.string (docsLocation.toJSString ++ "/" ++ relativePath.toJSString))
        slug]) :=
  ArticleLayout_mkData slug modSlug title metaTitle metaDescription langSwitcher
    dbSwitcher toc body relativePath tableOfContents docsLocation location

/-- C3: the editDocsPath prop handed to PageBottom is the docsLocation,
a slash, and the relativePath of the MDX node's parent file, concatenated;
the pageUrl prop is the slug field of the MDX node. -/
theorem page_bottom_props (slug modSlug title metaTitle metaDescription langSwitcher
    dbSwitcher toc body tableOfContents : JSValue) (relativePath docsLocation : String)
    (location : JSValue) :
    passedPageBottom (ArticleLayout (mkData slug modSlug title metaTitle metaDescription
      langSwitcher dbSwitcher toc body (JSValue.string relativePath) tableOfContents
      (JSValue.string docsLocation)) location) =
    some (JSValue.string (docsLocation ++ "/" ++ relativePath), slug) := by
  rw [ArticleLayout_mkData]
  rfl

/-- C4: the SEO title is frontmatter.metaTitle when truthy and
frontmatter.title otherwise; the SEO description is
frontmatter.metaDescription when truthy and frontmatter.title otherwise. -/
theorem seo_title_description (slug modSlug title metaTitle metaDescription langSwitcher
    dbSwitcher toc body relativePath tableOfContents docsLocation location : JSValue) :
    passedSEO (ArticleLayout (mkData slug modSlug title metaTitle metaDescription
      langSwitcher dbSwitcher toc body relativePath tableOfContents docsLocation)
      location) =
    some ((if metaTitle.truthy then metaTitle else title),
          (if metaDescription.truthy then metaDescription else title)) := by
  rw [ArticleLayout_mkData]
  rfl

/-- C5: on a null or undefined data input the component returns React null:
no child element is produced and no error is thrown. -/
theorem falsy_data_renders_null (location : JSValue) :
    ArticleLayout JSValue.null location = Except.ok RenderResult.null ∧
    ArticleLayout JSValue.undefined location = Except.ok RenderResult.null :=
  ⟨rfl, rfl⟩

/-- C6: the null guard covers only the data object itself. When data.mdx,
data.mdx.fields, data.mdx.frontmatter, data.mdx.parent, data.site and
data.site.siteMetadata are all present (not null or undefined), no property
access throws; and some non-null data whose mdx field is null reaches the
error branch. -/
theorem destructuring_requires_presence (data location : JSValue)
    (hmdx : (data.lookup "mdx").looseEqNull = false)
    (hfields : ((data.lookup "mdx").lookup "fields").looseEqNull = false)
    (hfm : ((data.lookup "mdx").lookup "frontmatter").looseEqNull = false)
    (hparent : ((data.lookup "mdx").lookup "parent").looseEqNull = false)
    (hsite : (data.lookup "site").looseEqNull = false)
    (hmeta : ((data.lookup "site").lookup "siteMetadata").looseEqNull = false) :
    (∃ r, ArticleLayout data location = Except.ok r) ∧
    (∃ e, ArticleLayout (JSValue.object [("mdx", JSValue.null)]) location
        = Except.error e) := by
  refine ⟨?_, ⟨_, rfl⟩⟩
  cases data with
  | null => simp [JSValue.lookup, JSValue.looseEqNull] at hmdx
  | undefined => simp [JSValue.lookup, JSValue.looseEqNull] at hmdx
  | boolean b => simp [JSValue.lookup, JSValue.looseEqNull] at hmdx
  | number n => simp [JSValue.lookup, JSValue.looseEqNull] at hmdx
  | string s => simp [JSValue.lookup, JSValue.looseEqNull] at hmdx
  | array xs => simp [JSValue.lookup, JSValue.looseEqNull] at hmdx
  | object fs =>
    simp only [ArticleLayout, JSValue.truthy, Bool.not_true, Bool.false_eq_true, if_false,
      exceptBind_ok, exceptPure_eq_ok,
      JSValue.get_of_not_null (JSValue.object fs) "mdx" rfl,
      JSValue.get_of_not_null (JSValue.object fs) "site" rfl,
      JSValue.get_of_not_null _ "fields" hmdx,
      JSValue.get_of_not_null _ "frontmatter" hmdx,
      JSValue.get_of_not_null _ "body" hmdx,
      JSValue.get_of_not_null _ "parent" hmdx,
      JSValue.get_of_not_null _ "tableOfContents" hmdx,
      JSValue.get_of_not_null _ "slug" hfields,
      JSValue.get_of_not_null _ "modSlug" hfields,
      JSValue.get_of_not_null _ "title" hfm,
      JSValue.get_of_not_null _ "metaTitle" hfm,
      JSValue.get_of_not_null _ "metaDescription" hfm,
      JSValue.get_of_not_null _ "langSwitcher" hfm,
      JSValue.get_of_not_null _ "dbSwitcher" hfm,
      JSValue.get_of_not_null _ "toc" hfm,
      JSValue.get_of_not_null _ "siteMetadata" hsite,
      JSValue.get_of_not_null _ "docsLocation" hmeta,
      JSValue.get_of_not_null _ "relativePath" hparent]
    exact ⟨_, rfl⟩

theorem destructuring_requires_presence_witness :
    (∃ r, ArticleLayout (mkData (JSValue.string "s") (JSValue.string "m")
      (JSValue.string "t") JSValue.null JSValue.null JSValue.null JSValue.null
      JSValue.null (JSValue.string "b") (JSValue.string "p") (JSValue.string "c")
      (JSValue.string "d")) JSValue.null = Except.ok r) ∧
    (∃ e, ArticleLayout (JSValue.object [("mdx", JSValue.null)]) JSValue.null
        = Except.error e) :=
  destructuring_requires_presence (mkData (JSValue.string "s") (JSValue.string "m")
    (JSValue.string "t") JSValue.null JSValue.null JSValue.null JSValue.null
    JSValue.null (JSValue.string "b") (JSValue.string "p") (JSValue.string "c")
    (JSValue.string "d")) JSValue.null rfl rfl rfl rfl rfl rfl

/-- C7: the render is a pure function of the data and location inputs:
two renders with equal inputs produce identical output. -/
theorem render_is_deterministic (data1 data2 location1 location2 : JSValue)
    (hd : data1 = data2) (hl : location1 = location2) :
    ArticleLayout data1 location1 = ArticleLayout data2 location2 := by
  rw [hd, hl]

theorem render_is_deterministic_witness :
    ArticleLayout (JSValue.string "d") (JSValue.string "l")
      = ArticleLayout (JSValue.string "d") (JSValue.string "l") :=
  render_is_deterministic (JSValue.string "d") (JSValue.string "d")
    (JSValue.string "l") (JSValue.string "l") rfl rfl

/-- A value in a GraphQL argument position: a query variable or an input
object. -/
inductive GqlValue where
  | var (name : String)
  | object (fields : List (String × GqlValue))
  deriving Repr

/-- A GraphQL selection: a field with arguments and a sub-selection, or an
inline fragment on a type. -/
inductive GqlSelection where
  | field (name : String) (args : List (String × GqlValue)) (subs : List GqlSelection)
  | inlineFragment (typeCondition : String) (subs : List GqlSelection)
  deriving Repr

mutual

/-- The dotted field paths a selection requests, one per leaf field; an
inline fragment contributes its leaves at the enclosing level. -/
def GqlSelection.leafPaths : GqlSelection → List (List String)
  | .field n _ [] => [[n]]
  | .field n _ (s :: ss) =>
    (GqlSelection.leafPathsAll (s :: ss)).map (fun p => n :: p)
  | .inlineFragment _ subs => GqlSelection.leafPathsAll subs

/-- The leaf paths of a list of selections, concatenated. -/
def GqlSelection.leafPathsAll : List GqlSelection → List (List String)
  | [] => []
  | s :: ss => s.leafPaths ++ GqlSelection.leafPathsAll ss

end

/-- The arguments of a selection. -/
def GqlSelection.args : GqlSelection → List (String × GqlValue)
  | .field _ a _ => a
  | .inlineFragment _ _ => []

/-- The mdx selection of the exported page query of articleLayout.tsx:
`mdx(fields: { id: { eq: $id } }) { ... }`. -/
def mdxSelection : GqlSelection :=
  .field "mdx"
    [("fields", GqlValue.object [("id", GqlValue.object [("eq", GqlValue.var "id")])])]
    [.field "fields" [] [.field "slug" [] [], .field "modSlug" [] []],
     .field "body" [] [],
     .field "parent" [] [.inlineFragment "File" [.field "relativePath" [] []]],
     .field "tableOfContents" [] [],
     .field "frontmatter" [] [
       .field "title" [] [], .field "metaTitle" [] [], .field "metaDescription" [] [],
       .field "langSwitcher" [] [], .field "dbSwitcher" [] [], .field "toc" [] []]]

/-- The top-level selections of the exported page query of
articleLayout.tsx. -/
def articleQuery : List GqlSelection :=
  [.field "site" [] [.field "siteMetadata" [] [.field "docsLocation" [] []]],
   mdxSelection]

/-- Every data path the component reads from the query result: the
destructured fields plus the parent.relativePath access in the rendered
output. -/
def destructuredPaths : List (List String) :=
  [["mdx", "fields", "slug"], ["mdx", "fields", "modSlug"],
   ["mdx", "frontmatter", "title"], ["mdx", "frontmatter", "metaTitle"],
   ["mdx", "frontmatter", "metaDescription"], ["mdx", "frontmatter", "langSwitcher"],
   ["mdx", "frontmatter", "dbSwitcher"], ["mdx", "frontmatter", "toc"],
   ["mdx", "body"], ["mdx", "parent", "relativePath"], ["mdx", "tableOfContents"],
   ["site", "siteMetadata", "docsLocation"]]

/-- C8: every field the component destructures from data is requested by
the exported query, and the query selects the mdx node whose fields.id
equals the id variable. -/
theorem query_covers_destructured_fields :
    destructuredPaths.all
      (fun p => (GqlSelection.leafPathsAll articleQuery).contains p) = true ∧
    mdxSelection ∈ articleQuery ∧
    mdxSelection.args =
      [("fields", GqlValue.object [("id", GqlValue.object [("eq", GqlValue.var "id")])])] :=
  ⟨by decide, List.Mem.tail _ (List.Mem.head _), rfl⟩

/-- C9: the body string from the query result reaches MDXRenderer
unchanged. -/
theorem mdx_body_passed_unchanged (slug modSlug title metaTitle metaDescription langSwitcher
    dbSwitcher toc body relativePath tableOfContents docsLocation location : JSValue) :
    passedMdxChildren (ArticleLayout (mkData slug modSlug title metaTitle metaDescription
      langSwitcher dbSwitcher toc body relativePath tableOfContents docsLocation)
      location) = some body := by
  rw [ArticleLayout_mkData]
  rfl

end Docs
